import Mathlib

/-!
Shallow embedding of `src/app.py` (an OCR key-value extraction service).

The embedding models, faithfully to the Python source:
* `create_text_dictionary` (line classification and key-value assembly),
  including the `ValueError` raised on empty input and the `IndexError`
  raised by `values[i]` when the key list is longer than the value list
  (only `ValueError` is caught inside the function, so `IndexError` escapes);
* `detect_text` (the text-extraction adapter), whose Python body never
  executes a `return` statement and therefore returns `None` on every
  non-raising path;
* `store_in_firestore` (merge-upsert into an association-list document store);
* the `/process_images` endpoint, including the fact that its loop calls
  `detect_text(image_url)` with one positional argument although the
  function is defined with two mandatory parameters, which in Python raises
  `TypeError` before the callee body runs; the per-image `except Exception`
  swallows it.

Python dictionaries are embedded as association lists in insertion order;
`d[k] = v` overwrites in place when the key is present and appends otherwise.
Machine strings are Lean `String`; `str.strip` and `str.splitlines` are
embedded structurally over the character list (splitting on the newline
character, which together with stripping covers the line data relevant here).
-/

/-- Python `\d` character class (ASCII digits, as used by the patterns here). -/
def isDigitCh (c : Char) : Bool := c.isDigit

/-- Python `\w` character class (letters, digits, underscore). -/
def isWordCh (c : Char) : Bool := c.isAlphanum || c == '_'

/-- Whitespace characters removed by Python `str.strip`. -/
def pyIsSpace (c : Char) : Bool :=
  c == ' ' || c == '\t' || c == '\n' || c == '\r' || c == '\x0b' || c == '\x0c'

/-- `str.strip` on the character list: drop leading and trailing whitespace. -/
def stripChars (cs : List Char) : List Char :=
  ((cs.dropWhile pyIsSpace).reverse.dropWhile pyIsSpace).reverse

/-- `str.strip` on strings. -/
def pyStrip (s : String) : String := ⟨stripChars s.data⟩

/-- Split a character list at newline characters (accumulator holds the
current line reversed). -/
def splitLinesChars : List Char → List Char → List (List Char)
| [], acc => [acc.reverse]
| c :: cs, acc =>
  if c == '\n' then acc.reverse :: splitLinesChars cs []
  else splitLinesChars cs (c :: acc)

/-- `str.splitlines` as used in `create_text_dictionary` (the lines are
stripped afterwards, so the carriage return of a CRLF pair is removed there). -/
def pySplitlines (s : String) : List String :=
  (splitLinesChars s.data []).map (fun cs => ⟨cs⟩)

/-- `[line.strip() for line in text.splitlines() if line.strip()]`:
the stripped, non-empty lines of the raw OCR text. -/
def linesOf (text : String) : List String :=
  ((pySplitlines text).map pyStrip).filter (fun l => !l.data.isEmpty)

/-- Tail of the key-shape regular expression after the first `digit dot`
group: zero or more further `digit dot` groups followed by one word
character and the end of the string. -/
def keyTail : List Char → Bool
| [] => false
| [c] => isWordCh c
| c1 :: c2 :: rest => isDigitCh c1 && c2 == '.' && keyTail rest

/-- The key shape `(one digit then a dot, repeated at least once, then one
digit or word character, then end of string)`, the pattern named
`alternate_dot_pattern` in the source. Group lengths are fixed, so the
regular expression is equivalent to this deterministic scan. -/
def matchAlternateDot (s : String) : Bool :=
  match s.data with
  | c1 :: c2 :: rest => isDigitCh c1 && c2 == '.' && keyTail rest
  | _ => false

/-- The all-digits shape (one or more digits then end of string), the
pattern named `all_digits_pattern` in the source. -/
def matchAllDigits (s : String) : Bool :=
  !s.data.isEmpty && s.data.all isDigitCh

/-- `any(char.isdigit() for char in item) and any(char == . for char in item)`:
the condition the classification loop uses to put a candidate in `keys`. -/
def hasDigitAndDot (item : String) : Bool :=
  item.data.any isDigitCh && item.data.any (fun c => c == '.')

/-- `data = lines[4:]` filtered by the two shape patterns: the candidate
lines of one image, in original order. -/
def candidatesOf (text : String) : List String :=
  ((linesOf text).drop 4).filter
    (fun item => matchAlternateDot item || matchAllDigits item)

/-- The `keys` list built by the classification loop. -/
def keysOf (text : String) : List String :=
  (candidatesOf text).filter hasDigitAndDot

/-- The `values` list built by the classification loop (the `elif` branch:
not key-shaped there, and consisting entirely of digits). -/
def valuesOf (text : String) : List String :=
  (candidatesOf text).filter
    (fun item => !hasDigitAndDot item && item.data.all isDigitCh)

/-- First-match lookup in an association list, the observation function for
embedded Python dictionaries and document stores. -/
def assocGet {α : Type} : List (String × α) → String → Option α
| [], _ => none
| p :: d, k => if p.1 == k then some p.2 else assocGet d k

/-- Python `d[k] = v` on a dictionary embedded as an association list in
insertion order: overwrite in place if the key is present, append otherwise. -/
def dictInsert (d : List (String × String)) (k v : String) : List (String × String) :=
  match assocGet d k with
  | some _ => d.map (fun p => if p.1 == k then (p.1, v) else p)
  | none => d ++ [(k, v)]

/-- Python `d.update(other)` where `other` is itself a dictionary:
insert every pair of `other` into `d`, later pairs overwriting earlier ones. -/
def pyUpdate (d other : List (String × String)) : List (String × String) :=
  other.foldl (fun acc p => dictInsert acc p.1 p.2) d

/-- Build a Python dictionary from a pair list (the loop
`output_dict[keys[i]] = values[i]`). -/
def buildDict (pairs : List (String × String)) : List (String × String) :=
  pyUpdate [] pairs

/-- The Python exceptions that matter to this program. -/
inductive PyErr where
| valueError
| indexError
| typeError
| exception
deriving DecidableEq, Repr

/-- `create_text_dictionary(text)` from the source:
strip lines and drop empty ones; raise `ValueError` when none remain;
drop the first four lines; keep the lines matching one of the two shapes;
split them into `keys` and `values`; then run
`for i in range(0, len(keys)): output_dict[keys[i]] = values[i]`.
When `values` is shorter than `keys` the subscript `values[i]` raises
`IndexError`, which the surrounding `except ValueError` does not catch,
so the call raises and the partially built dictionary is discarded. -/
def create_text_dictionary (text : String) :
    Except PyErr (List (String × String)) :=
  if (linesOf text).isEmpty then Except.error PyErr.valueError
  else if (valuesOf text).length < (keysOf text).length then
    Except.error PyErr.indexError
  else Except.ok (buildDict ((keysOf text).zip (valuesOf text)))

/-- The collection name used by `store_in_firestore`. -/
def firestoreCollection : String := "scanned_data"

/-- `store_in_firestore(data_dict, doc_id)`: `doc_ref.set(data_dict, merge=True)`
on the document `doc_id` of the `scanned_data` collection, embedded as an
association list from document id to document fields. A missing document is
created with exactly the fields of `data_dict`; an existing document has the
fields of `data_dict` merged over its prior fields. Nothing else is written:
in particular no timestamp field is added. The Python function catches every
exception of the external client, so it never raises. -/
def store_in_firestore (db : List (String × List (String × String)))
    (data_dict : List (String × String)) (doc_id : String) :
    List (String × List (String × String)) :=
  match assocGet db doc_id with
  | none => db ++ [(doc_id, data_dict)]
  | some _ => db.map (fun p => if p.1 == doc_id then (p.1, pyUpdate p.2 data_dict) else p)

/-- The outcomes of the external collaborators for one image URL:
whether the byte fetch succeeds, the description strings of the text
detections reported by the OCR collaborator, and the error message carried
by the OCR response (empty when there is none). -/
structure UrlEnv where
  fetchOk : Bool
  texts : List String
  ocrMessage : String
deriving Repr

/-- `detect_text` is defined as `def detect_text(image_url, document_id)`:
two mandatory positional parameters. -/
def detect_text_paramCount : Nat := 2

/-- The body of `detect_text(image_url, document_id)`. No path executes a
`return` statement, so every non-raising path returns Python `None`
(modelled as `Except.ok none`). A failed fetch raises a request exception
that the function catches itself. With detections present, the first
description is printed and parsed; `create_text_dictionary` may raise:
`ValueError` is caught by the inner handler (and on success
`store_in_firestore` is invoked, swallowing its own errors), while any other
exception such as `IndexError` escapes `detect_text`. Afterwards a non-empty
OCR error message raises a plain `Exception`, which also escapes. -/
def detect_text_run (env : UrlEnv) (document_id : String) :
    Except PyErr (Option String) :=
  if !env.fetchOk then Except.ok none
  else
    let afterTexts : Except PyErr Unit :=
      match env.texts with
      | [] => Except.ok ()
      | t :: _ =>
        match create_text_dictionary t with
        | Except.ok _ => Except.ok ()
        | Except.error PyErr.valueError => Except.ok ()
        | Except.error e => Except.error e
    match afterTexts with
    | Except.error e => Except.error e
    | Except.ok _ =>
      if env.ocrMessage.data.isEmpty then Except.ok none
      else Except.error PyErr.exception

/-- Python call semantics for the loop call site `detect_text(image_url)`:
supplying fewer positional arguments than the number of mandatory
parameters raises `TypeError` before the callee body runs. -/
def callDetectText (argCount : Nat)
    (body : Unit → Except PyErr (Option String)) : Except PyErr (Option String) :=
  if argCount < detect_text_paramCount then Except.error PyErr.typeError
  else body ()

/-- Observable effects of one `/process_images` request: the print marking
the start of one image iteration, and the persistence write. -/
inductive Event where
| attemptImage : String → Event
| storeCall : String → List (String × String) → Event
deriving DecidableEq, Repr

/-- An HTTP response, reduced to status code and message string. -/
structure HttpResponse where
  status : Nat
  body : String
deriving DecidableEq, Repr

/-- The JSON body of a `/process_images` request: each field is absent or
present (a missing key makes `data.get` return `None`). -/
structure ApiRequest where
  image_urls : Option (List String)
  document_id : Option String
deriving DecidableEq, Repr

/-- Python truthiness of the `image_urls` value: `None` and the empty list
are falsy. -/
def pyTruthyUrls : Option (List String) → Bool
| none => false
| some l => !l.isEmpty

/-- Python truthiness of the `document_id` value: `None` and the empty
string are falsy. -/
def pyTruthyId : Option String → Bool
| none => false
| some s => !s.data.isEmpty

/-- Mutable state of the endpoint loop: `consolidated_data` and the emitted
events so far. -/
structure LoopState where
  consolidated : List (String × String)
  events : List Event
deriving Repr

/-- One iteration of the endpoint loop over `image_urls`:
print the processing message, then `extracted_text = detect_text(image_url)`
(one argument), then `if extracted_text:` parse and merge. The whole
iteration body sits in a `try` whose `except Exception` swallows any error,
so an exception leaves `consolidated_data` unchanged and the loop continues. -/
def processOneImage (env : String → UrlEnv) (document_id : String)
    (st : LoopState) (url : String) : LoopState :=
  let st1 : LoopState := ⟨st.consolidated, st.events ++ [Event.attemptImage url]⟩
  match callDetectText 1 (fun _ => detect_text_run (env url) document_id) with
  | Except.error _ => st1
  | Except.ok none => st1
  | Except.ok (some t) =>
    match create_text_dictionary t with
    | Except.ok d => ⟨pyUpdate st1.consolidated d, st1.events⟩
    | Except.error _ => st1

/-- The `/process_images` endpoint: validate the two fields (falsy values
rejected with HTTP 400), loop over the URLs, and afterwards either report
HTTP 400 when `consolidated_data` is empty or persist once and report
HTTP 200. `env` gives the external collaborators' behaviour per URL. -/
def process_images_api (env : String → UrlEnv) (req : ApiRequest) :
    HttpResponse × List Event :=
  if !(pyTruthyUrls req.image_urls) || !(pyTruthyId req.document_id) then
    (⟨400, "Missing image_urls or document_id"⟩, [])
  else
    let urls := req.image_urls.getD []
    let document_id := req.document_id.getD ""
    let final := urls.foldl (processOneImage env document_id) ⟨[], []⟩
    if final.consolidated.isEmpty then
      (⟨400, "No valid text found in the provided images"⟩, final.events)
    else
      (⟨200, "Images processed and data uploaded successfully"⟩,
        final.events ++ [Event.storeCall document_id final.consolidated])

/-- A per-image outcome counts as a success when the call into the
extraction adapter returns usable text whose parse succeeds (the only way
an iteration can contribute to `consolidated_data`). -/
def imageSucceeds (env : String → UrlEnv) (document_id url : String) : Bool :=
  match callDetectText 1 (fun _ => detect_text_run (env url) document_id) with
  | Except.ok (some t) =>
    match create_text_dictionary t with
    | Except.ok _ => true
    | Except.error _ => false
  | _ => false

/-- The image URLs whose processing was started, in order, as recorded in
the event trace. -/
def attemptedUrls (events : List Event) : List String :=
  events.filterMap (fun e =>
    match e with
    | Event.attemptImage u => some u
    | Event.storeCall _ _ => none)

/-! ### General lemmas about the embedded dictionary operations -/

theorem isEmpty_true_iff {α : Type} (l : List α) : l.isEmpty = true ↔ l = [] := by
  cases l <;> simp

theorem assocGet_append_single {α : Type} (d : List (String × α)) (j : String)
    (w : α) (i : String) :
    assocGet (d ++ [(j, w)]) i =
      match assocGet d i with
      | some u => some u
      | none => if j == i then some w else none := by
  induction d with
  | nil => rfl
  | cons p d ih =>
    cases hp : (p.1 == i) <;> simp [assocGet, hp, ih]

theorem bfalse_ne_true {b : Bool} (h : b = false) : ¬(b = true) := by
  rw [h]
  exact fun hc => Bool.noConfusion hc

theorem assocGet_map_update {α : Type} (g : α → α) (j : String)
    (d : List (String × α)) (i : String) :
    assocGet (d.map (fun p => if p.1 == j then (p.1, g p.2) else p)) i =
      (assocGet d i).map (fun w => if i == j then g w else w) := by
  induction d with
  | nil => rfl
  | cons p d ih =>
    simp only [List.map_cons, assocGet]
    rw [ih]
    cases hj : (p.1 == j) with
    | true =>
      rw [if_pos rfl]
      cases hp : (p.1 == i) with
      | true =>
        have hij : (i == j) = true := by rw [← eq_of_beq hp]; exact hj
        simp [hp, hij]
      | false => simp [hp]
    | false =>
      rw [if_neg (bfalse_ne_true rfl)]
      cases hp : (p.1 == i) with
      | true =>
        have hij : (i == j) = false := by rw [← eq_of_beq hp]; exact hj
        simp [hp, hij]
      | false => simp [hp]

theorem assocGet_eq_none_of_not_mem {α : Type} (d : List (String × α))
    (k : String) (h : k ∉ d.map Prod.fst) : assocGet d k = none := by
  induction d with
  | nil => rfl
  | cons p d ih =>
    rw [List.map_cons, List.mem_cons] at h
    push_neg at h
    have hbeq : (p.1 == k) = false := beq_eq_false_iff_ne.mpr (fun he => h.1 he.symm)
    simp [assocGet, hbeq, ih h.2]

theorem assocGet_dictInsert (d : List (String × String)) (k v k' : String) :
    assocGet (dictInsert d k v) k' = if k' = k then some v else assocGet d k' := by
  unfold dictInsert
  cases hd : assocGet d k with
  | some w =>
    rw [assocGet_map_update (fun _ => v) k d k']
    by_cases he : k' = k
    · subst he
      rw [if_pos rfl, hd]
      simp
    · rw [if_neg he]
      have hbeq : (k' == k) = false := beq_eq_false_iff_ne.mpr he
      cases hg : assocGet d k' <;> simp [hbeq]
  | none =>
    rw [assocGet_append_single]
    by_cases he : k' = k
    · subst he
      rw [if_pos rfl, hd]
      simp
    · rw [if_neg he]
      have hbeq : (k == k') = false := beq_eq_false_iff_ne.mpr (fun hh => he hh.symm)
      cases hg : assocGet d k' <;> simp [hbeq]

theorem pyUpdate_cons (d : List (String × String)) (p : String × String)
    (rest : List (String × String)) :
    pyUpdate d (p :: rest) = pyUpdate (dictInsert d p.1 p.2) rest := rfl

theorem assocGet_pyUpdate_not_mem (data : List (String × String)) :
    ∀ (d : List (String × String)) (k : String), k ∉ data.map Prod.fst →
      assocGet (pyUpdate d data) k = assocGet d k := by
  induction data with
  | nil => intro d k _; rfl
  | cons p rest ih =>
    intro d k hk
    rw [List.map_cons, List.mem_cons] at hk
    push_neg at hk
    rw [pyUpdate_cons, ih _ k hk.2, assocGet_dictInsert, if_neg hk.1]

theorem mem_dictInsert (d : List (String × String)) (k v : String)
    (q : String × String) (h : q ∈ dictInsert d k v) : q ∈ d ∨ q.1 = k := by
  unfold dictInsert at h
  cases hd : assocGet d k with
  | some w =>
    rw [hd] at h
    rcases List.mem_map.mp h with ⟨p, hp, hf⟩
    by_cases hpk : (p.1 == k) = true
    · rw [if_pos hpk] at hf
      right
      rw [← hf]
      exact eq_of_beq hpk
    · rw [if_neg hpk] at hf
      left
      rw [← hf]
      exact hp
  | none =>
    rw [hd] at h
    rcases List.mem_append.mp h with h | h
    · left; exact h
    · right
      have := List.mem_singleton.mp h
      rw [this]

theorem mem_pyUpdate (data : List (String × String)) :
    ∀ (d : List (String × String)) (q : String × String), q ∈ pyUpdate d data →
      q ∈ d ∨ q.1 ∈ data.map Prod.fst := by
  induction data with
  | nil => intro d q h; left; exact h
  | cons p rest ih =>
    intro d q h
    rw [pyUpdate_cons] at h
    rcases ih _ q h with h2 | h2
    · rcases mem_dictInsert d p.1 p.2 q h2 with h3 | h3
      · left; exact h3
      · right
        rw [List.map_cons, List.mem_cons]
        left
        exact h3
    · right
      rw [List.map_cons, List.mem_cons]
      right
      exact h2

theorem pyUpdate_all_fresh (data : List (String × String)) :
    ∀ (d : List (String × String)), (data.map Prod.fst).Nodup →
      (∀ q ∈ data, assocGet d q.1 = none) → pyUpdate d data = d ++ data := by
  induction data with
  | nil => intro d _ _; simp [pyUpdate]
  | cons p rest ih =>
    intro d hnd hfresh
    rw [pyUpdate_cons]
    have hd : assocGet d p.1 = none := hfresh p (List.mem_cons_self _ _)
    have hins : dictInsert d p.1 p.2 = d ++ [(p.1, p.2)] := by
      unfold dictInsert
      rw [hd]
    rw [List.map_cons] at hnd
    have hp1 : p.1 ∉ rest.map Prod.fst := (List.nodup_cons.mp hnd).1
    have hnd2 : (rest.map Prod.fst).Nodup := (List.nodup_cons.mp hnd).2
    have hfresh2 : ∀ q ∈ rest, assocGet (d ++ [(p.1, p.2)]) q.1 = none := by
      intro q hq
      rw [assocGet_append_single, hfresh q (List.mem_cons_of_mem _ hq)]
      have hbeq : (p.1 == q.1) = false :=
        beq_eq_false_iff_ne.mpr
          (fun he => hp1 (he ▸ List.mem_map_of_mem Prod.fst hq))
      simp [hbeq]
    rw [hins, ih (d ++ [(p.1, p.2)]) hnd2 hfresh2, List.append_assoc]
    rfl

theorem buildDict_eq_self (ps : List (String × String))
    (h : (ps.map Prod.fst).Nodup) : buildDict ps = ps := by
  have := pyUpdate_all_fresh ps [] h (fun q _ => rfl)
  simpa [buildDict] using this

theorem assocGet_zip (ks : List String) :
    ∀ (vs : List String), ks.Nodup →
      ∀ (i : Nat) (h1 : i < ks.length) (h2 : i < vs.length),
        assocGet (ks.zip vs) (ks.get ⟨i, h1⟩) = some (vs.get ⟨i, h2⟩) := by
  induction ks with
  | nil => intro vs _ i h1 _; exact absurd h1 (Nat.not_lt_zero i)
  | cons k ks ih =>
    intro vs hnd i h1 h2
    cases vs with
    | nil => exact absurd h2 (Nat.not_lt_zero i)
    | cons v vs =>
      cases i with
      | zero => simp [assocGet]
      | succ j =>
        have hk : k ∉ ks := (List.nodup_cons.mp hnd).1
        have h1j : j < ks.length := Nat.lt_of_succ_lt_succ h1
        have h2j : j < vs.length := Nat.lt_of_succ_lt_succ h2
        have hbeq : (k == ks.get ⟨j, h1j⟩) = false :=
          beq_eq_false_iff_ne.mpr (fun he => hk (he ▸ ks.get_mem j h1j))
        show (if k == ks.get ⟨j, h1j⟩ then some v
              else assocGet (ks.zip vs) (ks.get ⟨j, h1j⟩)) =
            some (vs.get ⟨j, h2j⟩)
        rw [if_neg (bfalse_ne_true hbeq)]
        exact ih vs (List.nodup_cons.mp hnd).2 j h1j h2j

theorem create_eq_of_ne (text : String) (hne : linesOf text ≠ []) :
    create_text_dictionary text =
      if (valuesOf text).length < (keysOf text).length then
        Except.error PyErr.indexError
      else Except.ok (buildDict ((keysOf text).zip (valuesOf text))) := by
  unfold create_text_dictionary
  rw [if_neg (fun h => hne ((isEmpty_true_iff (linesOf text)).mp h))]

/-! ### Lemmas about the `/process_images` loop -/

theorem processOneImage_eq (env : String → UrlEnv) (document_id : String)
    (st : LoopState) (url : String) :
    processOneImage env document_id st url =
      ⟨st.consolidated, st.events ++ [Event.attemptImage url]⟩ := rfl

theorem foldl_processOneImage (env : String → UrlEnv) (document_id : String) :
    ∀ (urls : List String) (st : LoopState),
      urls.foldl (processOneImage env document_id) st =
        ⟨st.consolidated, st.events ++ urls.map Event.attemptImage⟩ := by
  intro urls
  induction urls with
  | nil => intro st; simp
  | cons u rest ih =>
    intro st
    rw [List.foldl_cons, processOneImage_eq, ih]
    simp

theorem process_images_valid (env : String → UrlEnv) (req : ApiRequest)
    (h1 : pyTruthyUrls req.image_urls = true)
    (h2 : pyTruthyId req.document_id = true) :
    process_images_api env req =
      (⟨400, "No valid text found in the provided images"⟩,
       (req.image_urls.getD []).map Event.attemptImage) := by
  unfold process_images_api
  rw [h1, h2]
  simp only [Bool.not_true, Bool.or_self, Bool.false_or, if_neg (bfalse_ne_true rfl)]
  rw [foldl_processOneImage]
  simp

theorem process_images_invalid (env : String → UrlEnv) (req : ApiRequest)
    (h : pyTruthyUrls req.image_urls = false ∨ pyTruthyId req.document_id = false) :
    process_images_api env req = (⟨400, "Missing image_urls or document_id"⟩, []) := by
  unfold process_images_api
  rcases h with h | h <;> rw [h] <;> simp

theorem status_400 (env : String → UrlEnv) (req : ApiRequest) :
    (process_images_api env req).1.status = 400 := by
  cases h1 : pyTruthyUrls req.image_urls with
  | false => rw [process_images_invalid env req (Or.inl h1)]
  | true =>
    cases h2 : pyTruthyId req.document_id with
    | false => rw [process_images_invalid env req (Or.inr h2)]
    | true => rw [process_images_valid env req h1 h2]

theorem imageSucceeds_false (env : String → UrlEnv) (document_id url : String) :
    imageSucceeds env document_id url = false := rfl

theorem attemptedUrls_map (l : List String) :
    attemptedUrls (l.map Event.attemptImage) = l := by
  induction l with
  | nil => rfl
  | cons u rest ih =>
    simp only [List.map_cons, attemptedUrls, List.filterMap_cons] at ih ⊢
    rw [ih]

/-! ### Claim theorems -/

/-- A collaborator environment in which every fetch succeeds and the OCR
collaborator reports nothing (used to instantiate universally quantified
claims at a concrete input). -/
def envA : String → UrlEnv := fun _ => ⟨true, [], ""⟩

/-- A well-formed request with one image URL. -/
def reqA : ApiRequest := ⟨some ["u1"], some "doc1"⟩

/-- A well-formed request with two image URLs. -/
def reqB : ApiRequest := ⟨some ["u1", "u2"], some "doc1"⟩

/-- A request whose image list is present but empty. -/
def reqC : ApiRequest := ⟨some [], some "doc1"⟩

/-- Claim C1: for every `/process_images` request whose body has a non-empty
`image_urls` list and a truthy `document_id`, and for every behaviour of the
external collaborators, the endpoint answers HTTP 400 with the message
`No valid text found in the provided images` (never HTTP 200), and the
event trace of the request consists exactly of the per-image start marks:
in particular no persistence write occurs. Each loop iteration calls
`detect_text` with one argument although it has two mandatory parameters,
so every iteration raises `TypeError`, which the per-image handler swallows,
and `consolidated_data` stays empty. -/
theorem claim1 (env : String → UrlEnv) (req : ApiRequest)
    (h1 : pyTruthyUrls req.image_urls = true)
    (h2 : pyTruthyId req.document_id = true) :
    (process_images_api env req).1 =
      ⟨400, "No valid text found in the provided images"⟩
  ∧ (process_images_api env req).2 =
      (req.image_urls.getD []).map Event.attemptImage := by
  rw [process_images_valid env req h1 h2]
  exact ⟨rfl, rfl⟩

/-- Witness for C1 at a concrete request and environment. -/
theorem claim1_witness :
    (process_images_api envA reqA).1 =
      ⟨400, "No valid text found in the provided images"⟩
  ∧ (process_images_api envA reqA).2 =
      (reqA.image_urls.getD []).map Event.attemptImage :=
  claim1 envA reqA rfl rfl

/-- Claim C5: the batch success flag (HTTP 200) holds if and only if at
least one per-image outcome succeeded; a request with zero images, like one
where every image fails, yields a non-success response. In this code no
image can ever succeed (the arity bug makes every iteration raise), and the
endpoint never returns 200, so both sides of the equivalence are false for
every input. -/
theorem claim5 (env : String → UrlEnv) (req : ApiRequest) :
    (((process_images_api env req).1.status = 200) ↔
      (∃ url ∈ req.image_urls.getD [],
        imageSucceeds env (req.document_id.getD "") url = true))
  ∧ (req.image_urls = some [] → (process_images_api env req).1.status = 400) := by
  constructor
  · constructor
    · intro h200
      have h400 := status_400 env req
      rw [h400] at h200
      exact absurd h200 (by decide)
    · intro hex
      rcases hex with ⟨url, _, hs⟩
      rw [imageSucceeds_false] at hs
      exact absurd hs (by decide)
  · intro _
    exact status_400 env req

/-- Witness for C5 at a concrete request and environment. -/
theorem claim5_witness :
    (((process_images_api envA reqC).1.status = 200) ↔
      (∃ url ∈ reqC.image_urls.getD [],
        imageSucceeds envA (reqC.document_id.getD "") url = true))
  ∧ (reqC.image_urls = some [] → (process_images_api envA reqC).1.status = 400) :=
  claim5 envA reqC

/-- Claim C8: a failure while processing one image never prevents the
processing of the later images: for every collaborator behaviour and every
well-formed request, the trace records one processing attempt per requested
URL, in input order (errors are caught at the per-image boundary, so the
loop always reaches every image). -/
theorem claim8 (env : String → UrlEnv) (req : ApiRequest)
    (h1 : pyTruthyUrls req.image_urls = true)
    (h2 : pyTruthyId req.document_id = true) :
    attemptedUrls (process_images_api env req).2 = req.image_urls.getD [] := by
  rw [process_images_valid env req h1 h2]
  exact attemptedUrls_map _

/-- Witness for C8: both images of a two-image batch are attempted although
the first one fails. -/
theorem claim8_witness :
    attemptedUrls (process_images_api envA reqB).2 = reqB.image_urls.getD [] :=
  claim8 envA reqB rfl rfl

/-- Claim C9: a request missing `image_urls` or `document_id` (or carrying
an empty `image_urls` list, which is falsy in Python) is answered with
HTTP 400 and an error message, and its trace is empty: no fetch, OCR,
parse or persistence work is started. -/
theorem claim9 (env : String → UrlEnv) (req : ApiRequest)
    (h : pyTruthyUrls req.image_urls = false ∨ pyTruthyId req.document_id = false) :
    process_images_api env req = (⟨400, "Missing image_urls or document_id"⟩, []) :=
  process_images_invalid env req h

/-- Witness for C9 at the empty-image-list request of Scenario C. -/
theorem claim9_witness :
    process_images_api envA reqC = (⟨400, "Missing image_urls or document_id"⟩, []) :=
  claim9 envA reqC (Or.inl rfl)

/-- Scenario B input: four header lines, then two key-shaped lines and one
all-digits line. -/
def scenarioB : String := "h1\nh2\nh3\nh4\n1.1.1\n1.2.2\n007"

/-- Scenario A input: four header lines, then one key-shaped line and one
all-digits line. -/
def scenarioA : String := "h1\nh2\nh3\nh4\n1.1.1\n007"

/-- Counterexample to C2 as stated: on Scenario B (two keys, one value) the
assembler does not return the single-pair mapping with the surplus key
silently dropped; the loop index `values[1]` raises an uncaught
`IndexError`. -/
theorem claim2_cex :
    create_text_dictionary scenarioB = Except.error PyErr.indexError
  ∧ create_text_dictionary scenarioB ≠ Except.ok [("1.1.1", "007")] :=
  ⟨rfl, fun h => Except.noConfusion h⟩

/-- Claim C2 as amended: when the key list is not longer than the value
list, the assembler returns the mapping pairing `keys[i]` with `values[i]`
for every `i` below the number of keys (of size equal to the number of keys
when the keys are distinct; surplus values are silently dropped); when the
keys outnumber the values it instead raises an uncaught `IndexError`, so
Scenario B raises rather than returning a one-pair mapping. -/
theorem claim2 (text : String) (hne : linesOf text ≠ [])
    (hnd : (keysOf text).Nodup) :
    ((valuesOf text).length < (keysOf text).length →
        create_text_dictionary text = Except.error PyErr.indexError)
  ∧ ((keysOf text).length ≤ (valuesOf text).length →
      ∃ d, create_text_dictionary text = Except.ok d
        ∧ d.length = (keysOf text).length
        ∧ ∀ (i : Nat) (hi : i < (keysOf text).length)
            (hv : i < (valuesOf text).length),
            assocGet d ((keysOf text).get ⟨i, hi⟩) =
              some ((valuesOf text).get ⟨i, hv⟩)) := by
  rw [create_eq_of_ne text hne]
  constructor
  · intro hlt
    rw [if_pos hlt]
  · intro hle
    rw [if_neg (Nat.not_lt.mpr hle)]
    have hfst : ((keysOf text).zip (valuesOf text)).map Prod.fst = keysOf text :=
      List.map_fst_zip _ _ hle
    have hself : buildDict ((keysOf text).zip (valuesOf text)) =
        (keysOf text).zip (valuesOf text) :=
      buildDict_eq_self _ (by rw [hfst]; exact hnd)
    refine ⟨(keysOf text).zip (valuesOf text), by rw [hself], ?_, ?_⟩
    · rw [List.length_zip]
      exact Nat.min_eq_left hle
    · intro i hi hv
      exact assocGet_zip (keysOf text) (valuesOf text) hnd i hi hv

/-- Witness for C2 (amended) at Scenario A: one key, one value, mapping of
size one pairing them. -/
theorem claim2_witness :
    ∃ d, create_text_dictionary scenarioA = Except.ok d
      ∧ d.length = (keysOf scenarioA).length := by
  obtain ⟨d, hd, hlen, _⟩ := (claim2 scenarioA (by decide) (by decide)).2 (by decide)
  exact ⟨d, hd, hlen⟩

/-- Counterexample to C3 as stated: an input with five non-empty lines
(so not empty after trimming) on which `create_text_dictionary`
nevertheless raises: the fifth line is key-shaped, no value line exists,
and the pairing loop raises `IndexError`. -/
theorem claim3_cex :
    create_text_dictionary "a\nb\nc\nd\n1.1" = Except.error PyErr.indexError
  ∧ linesOf "a\nb\nc\nd\n1.1" ≠ [] :=
  ⟨rfl, by decide⟩

/-- Claim C3 as amended: the assembler raises `ValueError` (the
`FormatError` of the specification) exactly when the input has zero
non-empty lines after trimming; with at least one non-empty line it
returns a mapping without raising unless the key-shaped lines outnumber
the all-digits lines, in which case it raises an uncaught `IndexError`. -/
theorem claim3 (text : String) :
    (create_text_dictionary text = Except.error PyErr.valueError ↔
      linesOf text = [])
  ∧ (linesOf text ≠ [] → (keysOf text).length ≤ (valuesOf text).length →
      ∃ d, create_text_dictionary text = Except.ok d)
  ∧ (linesOf text ≠ [] → (valuesOf text).length < (keysOf text).length →
      create_text_dictionary text = Except.error PyErr.indexError) := by
  by_cases hl : linesOf text = []
  · refine ⟨⟨fun _ => hl, fun _ => ?_⟩, fun hne => absurd hl hne, fun hne => absurd hl hne⟩
    unfold create_text_dictionary
    rw [hl]
    rfl
  · have hrw := create_eq_of_ne text hl
    refine ⟨⟨fun h => ?_, fun he => absurd he hl⟩, fun _ hle => ?_, fun _ hlt => ?_⟩
    · exfalso
      rw [hrw] at h
      by_cases hc : (valuesOf text).length < (keysOf text).length
      · rw [if_pos hc] at h
        have := Except.error.inj h
        exact PyErr.noConfusion this
      · rw [if_neg hc] at h
        exact Except.noConfusion h
    · rw [hrw, if_neg (Nat.not_lt.mpr hle)]
      exact ⟨_, rfl⟩
    · rw [hrw, if_pos hlt]

/-- Witness for C3 (amended): an input with one key and two values returns
a mapping. -/
theorem claim3_witness :
    ∃ d, create_text_dictionary "a\nb\nc\nd\n1.1\n2\n3" = Except.ok d :=
  (claim3 "a\nb\nc\nd\n1.1\n2\n3").2.1 (by decide) (by decide)

/-- Counterexample to C7 as stated: the empty raw text has fewer than five
non-empty lines, yet the assembler does not return an empty mapping
without error; it raises `ValueError`. -/
theorem claim7_cex :
    create_text_dictionary "" = Except.error PyErr.valueError
  ∧ (linesOf "").length < 5 :=
  ⟨rfl, by decide⟩

/-- Claim C7 as amended: for every raw text with at least one and fewer
than five non-empty trimmed lines, the first four are dropped entirely,
there are no candidate lines, and the result is the empty mapping with no
error (with zero non-empty lines a `ValueError` is raised instead); and
for every raw text, only lines after the first four non-empty trimmed
lines are subject to the pattern matching. -/
theorem claim7 (text : String) :
    ((linesOf text) ≠ [] → (linesOf text).length < 5 →
        create_text_dictionary text = Except.ok [])
  ∧ candidatesOf text =
      ((linesOf text).drop 4).filter
        (fun item => matchAlternateDot item || matchAllDigits item) := by
  constructor
  · intro hne hlen
    have hdrop : (linesOf text).drop 4 = [] :=
      List.drop_eq_nil_of_le (Nat.lt_succ_iff.mp hlen)
    have hcand : candidatesOf text = [] := by
      unfold candidatesOf
      rw [hdrop]
      rfl
    have hkeys : keysOf text = [] := by
      unfold keysOf
      rw [hcand]
      rfl
    have hvals : valuesOf text = [] := by
      unfold valuesOf
      rw [hcand]
      rfl
    rw [create_eq_of_ne text hne, hkeys, hvals]
    rfl
  · rfl

/-- Witness for C7 (amended) at a two-line input. -/
theorem claim7_witness :
    create_text_dictionary "x\ny" = Except.ok [] :=
  (claim7 "x\ny").1 (by decide) (by decide)

/-- A raw text whose parse succeeds, used as the description of the first
text detection in the C4 evaluation. -/
def t4 : String := "a\nb\nc\nd\n1.1\n7"

/-- Claim C4 (code bug evaluation): `detect_text` never executes a `return`
statement, so even when the fetch succeeds and the OCR collaborator reports
a detection whose description parses cleanly, the call returns Python
`None` rather than the first detection description; with no detections it
returns the same `None`. The caller in `process_images_api` binds this
return value and tests its truthiness, which demonstrates the intended
contract that the claim states. -/
theorem claim4 :
    detect_text_run ⟨true, [t4], ""⟩ "doc1" = Except.ok none
  ∧ (some t4 ≠ (none : Option String))
  ∧ detect_text_run ⟨true, [], ""⟩ "doc1" = Except.ok none :=
  ⟨rfl, fun h => Option.noConfusion h, rfl⟩

/-- Counterexample to C6 as stated: writing the one-field mapping into an
empty store creates a record holding exactly that field, so no
server-assigned timestamp field is added to the written record. -/
theorem claim6_cex :
    assocGet (store_in_firestore [] [("a", "1")] "d1") "d1" = some [("a", "1")] :=
  rfl

/-- Claim C6 as amended: `store_in_firestore` upsert-merges the mapping
into the document named by the identifier (in the `scanned_data`
collection): documents with other identifiers are untouched; a missing
document is created with the fields of the mapping; an existing document
receives the merge of the mapping over its prior fields; fields of the
prior document not named in the mapping keep their values; and every field
of the merged record is named either in the prior document or in the
mapping — in particular no timestamp field is added. -/
theorem claim6 (db : List (String × List (String × String)))
    (data_dict : List (String × String)) (doc_id : String) :
    (∀ i, i ≠ doc_id →
        assocGet (store_in_firestore db data_dict doc_id) i = assocGet db i)
  ∧ (assocGet db doc_id = none →
      assocGet (store_in_firestore db data_dict doc_id) doc_id = some data_dict)
  ∧ (∀ prior, assocGet db doc_id = some prior →
      assocGet (store_in_firestore db data_dict doc_id) doc_id =
        some (pyUpdate prior data_dict))
  ∧ (∀ prior k, k ∉ data_dict.map Prod.fst →
      assocGet (pyUpdate prior data_dict) k = assocGet prior k)
  ∧ (∀ prior q, q ∈ pyUpdate prior data_dict →
      q.1 ∈ prior.map Prod.fst ∨ q.1 ∈ data_dict.map Prod.fst) := by
  refine ⟨?_, ?_, ?_, ?_, ?_⟩
  · intro i hne
    unfold store_in_firestore
    cases hd : assocGet db doc_id with
    | none =>
      rw [assocGet_append_single]
      cases hg : assocGet db i with
      | some w => simp
      | none =>
        have hbeq : (doc_id == i) = false :=
          beq_eq_false_iff_ne.mpr (fun he => hne he.symm)
        simp [hbeq]
    | some pr =>
      rw [assocGet_map_update (fun w => pyUpdate w data_dict) doc_id db i]
      have hbeq : (i == doc_id) = false := beq_eq_false_iff_ne.mpr hne
      cases hg : assocGet db i <;> simp [hbeq]
  · intro hd
    unfold store_in_firestore
    rw [hd, assocGet_append_single, hd]
    simp
  · intro prior hd
    unfold store_in_firestore
    rw [hd, assocGet_map_update (fun w => pyUpdate w data_dict) doc_id db doc_id, hd]
    simp
  · intro prior k hk
    exact assocGet_pyUpdate_not_mem data_dict prior k hk
  · intro prior q hq
    rcases mem_pyUpdate data_dict prior q hq with h | h
    · left
      exact List.mem_map_of_mem Prod.fst h
    · right
      exact h

/-- Witness for C6 (amended) at a concrete store, mapping and identifier. -/
theorem claim6_witness :
    assocGet (store_in_firestore [("d1", [("a", "1")])] [("b", "2")] "d1") "d0" =
      assocGet [("d1", [("a", "1")])] "d0"
  ∧ assocGet (store_in_firestore [("d1", [("a", "1")])] [("b", "2")] "d1") "d1" =
      some (pyUpdate [("a", "1")] [("b", "2")])
  ∧ assocGet (pyUpdate [("a", "1")] [("b", "2")]) "a" =
      assocGet [("a", "1")] "a" := by
  obtain ⟨h1, _, h3, h4, _⟩ := claim6 [("d1", [("a", "1")])] [("b", "2")] "d1"
  exact ⟨h1 "d0" (by decide), h3 [("a", "1")] rfl, h4 [("a", "1")] "a" (by decide)⟩

/-- Claim C10: no input line matches both the key shape and the all-digits
shape (the key shape forces a dot in the second position, the all-digits
shape forces every character to be a digit), and a line matching neither
shape never appears in the `keys` or `values` sequence of the
classification pass. -/
theorem claim10 (line : String) (text : String) :
    ¬(matchAlternateDot line = true ∧ matchAllDigits line = true)
  ∧ (matchAlternateDot line = false → matchAllDigits line = false →
      line ∉ keysOf text ∧ line ∉ valuesOf text) := by
  constructor
  · rintro ⟨h1, h2⟩
    unfold matchAlternateDot at h1
    unfold matchAllDigits at h2
    cases hd : line.data with
    | nil =>
      rw [hd] at h1
      exact Bool.noConfusion h1
    | cons c1 rest1 =>
      cases rest1 with
      | nil =>
        rw [hd] at h1
        exact Bool.noConfusion h1
      | cons c2 rest =>
        rw [hd] at h1 h2
        rw [Bool.and_eq_true, Bool.and_eq_true] at h1
        rw [Bool.and_eq_true] at h2
        have hdot : (c2 == '.') = true := h1.1.2
        have hall : ∀ c ∈ c1 :: c2 :: rest, isDigitCh c = true :=
          List.all_eq_true.mp h2.2
        have hc2 : isDigitCh c2 = true :=
          hall c2 (List.mem_cons_of_mem _ (List.mem_cons_self _ _))
        rw [eq_of_beq hdot] at hc2
        exact absurd hc2 (by decide)
  · intro hf1 hf2
    constructor
    · intro hmem
      have h1 := List.mem_filter.mp hmem
      have h2 := List.mem_filter.mp h1.1
      have h3 := h2.2
      rw [Bool.or_eq_true] at h3
      rcases h3 with h | h
      · rw [hf1] at h
        exact Bool.noConfusion h
      · rw [hf2] at h
        exact Bool.noConfusion h
    · intro hmem
      have h1 := List.mem_filter.mp hmem
      have h2 := List.mem_filter.mp h1.1
      have h3 := h2.2
      rw [Bool.or_eq_true] at h3
      rcases h3 with h | h
      · rw [hf1] at h
        exact Bool.noConfusion h
      · rw [hf2] at h
        exact Bool.noConfusion h

/-- Witness for C10: the line `abc` matches neither shape and is absent
from both classification sequences of a text that contains it. -/
theorem claim10_witness :
    "abc" ∉ keysOf "h1\nh2\nh3\nh4\nabc\n1.1\n2"
  ∧ "abc" ∉ valuesOf "h1\nh2\nh3\nh4\nabc\n1.1\n2" :=
  (claim10 "abc" "h1\nh2\nh3\nh4\nabc\n1.1\n2").2 (by decide) (by decide)
